import Mathlib

/-!
# Marketplace workflow and validation layer: a shallow embedding

This file embeds the account & catalog mutation workflow of the marketplace
application (`app/forms.py` and `app/views.py`) in Lean 4 and proves the
spec's testable properties against it.

Modelling conventions:
* The persistence store is a `Store` of lists of records; SQLAlchemy's
  `filter_by(...).first()` becomes `List.find?`, `get_or_404` becomes
  `List.find?` with a `notFound` outcome on `none`, bulk
  `filter_by(...).delete()` becomes `List.filter`.
* Python `float` prices are modelled as `ℚ` (the parsed form value), so the
  comparison `data < self.min` in `NumberRange` is exact.
* The external collaborators (the `Email()` syntax validator from wtforms
  and the bcrypt hasher) are parameters (`emailOk`, `hash`, `verify`): only
  their results flow through the workflow under study.
* WTForms semantics mirrored from the library: `DataRequired` raises
  `StopValidation` on falsy data (so an empty string — or a float `0.0` —
  short-circuits the field's chain with only the required-message), while
  `Email`, `Length`, `NumberRange`, `EqualTo` and the inline
  `validate_<field>` methods raise plain `ValidationError`s that accumulate.
* SQL `ILIKE '%q%'` (`views.search`) is modelled by `ilikeMatch`, the
  standard LIKE pattern walk with `%`/`_` wildcards and case-insensitive
  character comparison.
-/

namespace Marketplace

/-- A `User` row: `models.User` (id, email, password_hash). -/
structure User where
  id : Nat
  email : String
  passwordHash : String
deriving DecidableEq

/-- A `Shop` row: `models.Shop` (id, name, image, owner_id). -/
structure Shop where
  id : Nat
  name : String
  image : Option String
  ownerId : Nat
deriving DecidableEq

/-- A `Product` row: `models.Product` (id, title, description, price, image, shop_id). -/
structure Product where
  id : Nat
  title : String
  description : String
  price : ℚ
  image : Option String
  shopId : Nat
deriving DecidableEq

/-- A `Comment` row: `models.Comment` (id, text, author_id, product_id). -/
structure Comment where
  id : Nat
  text : String
  authorId : Nat
  productId : Nat
deriving DecidableEq

/-- The persistence store: the four tables. -/
structure Store where
  users : List User
  shops : List Shop
  products : List Product
  comments : List Comment
deriving DecidableEq

/-- `User.query.filter_by(email=e).first()` — the store read used by
`BaseForm.validate_email` and by `views.register` / `views.login`. -/
def findUserByEmail (users : List User) (e : String) : Option User :=
  users.find? (fun u => u.email == e)

/-- `BaseForm.validate_email`: succeeds (returns `false` = no error) iff no
stored user already has the submitted email. -/
def emailTaken (users : List User) (e : String) : Bool :=
  (findUserByEmail users e).isSome

/-- The error list produced by the `email` field of `RegisterForm` /
`EditProfileForm`: `DataRequired` (stops the chain on empty data), then
`Email(...)` syntax (external validator `emailOk`), `Length(max=100)`, and the
inherited `BaseForm.validate_email` uniqueness check; the latter three
accumulate. -/
def emailFieldErrors (emailOk : String → Bool) (users : List User) (e : String) :
    List String :=
  if e = "" then ["Поле email обязательно для заполнения"]
  else
    (if emailOk e then [] else ["Введите корректный email адрес"]) ++
    (if e.length ≤ 100 then [] else ["Email не должен превышать 100 символов"]) ++
    (if emailTaken users e then ["Этот email уже зарегистрирован"] else [])

/-- The error list of `RegisterForm.password`: `DataRequired`, then
`Length(min=8)`. -/
def passwordFieldErrors (p : String) : List String :=
  if p = "" then ["Введите пароль"]
  else if p.length < 8 then ["Пароль должен быть не менее 8 символов"] else []

/-- The error list of `RegisterForm.confirm_password`: `DataRequired`, then
`EqualTo('password')`. -/
def confirmFieldErrors (password confirm : String) : List String :=
  if confirm = "" then ["Подтвердите пароль"]
  else if confirm ≠ password then ["Пароли должны совпадать"] else []

/-- The error list of `ProductForm.price`.  The raw value is `none` when the
field is missing or not numeric (`FloatField` coercion failure leaves
`data = None`); `DataRequired` fails on falsy data — which for a float
includes `0.0` — and `NumberRange(min=0.01)` fails when `data < 0.01`. -/
def priceFieldErrors (p : Option ℚ) : List String :=
  match p with
  | none => ["Укажите цену товара в рублях"]
  | some v =>
    if v = 0 then ["Укажите цену товара в рублях"]
    else if v < 1 / 100 then ["Цена должна быть больше 0"] else []

/-- `ProductForm.price` validation verdict. -/
def priceAccepted (p : Option ℚ) : Bool :=
  (priceFieldErrors p).isEmpty

/-- The error list of `ProductForm.title`: `DataRequired`, `Length(3, 100)`. -/
def titleFieldErrors (t : String) : List String :=
  if t = "" then ["Введите название товара"]
  else if 3 ≤ t.length ∧ t.length ≤ 100 then []
  else ["Название должно быть от 3 до 100 символов"]

/-- The error list of `ProductForm.description`: `DataRequired`,
`Length(10, 2000)`. -/
def descriptionFieldErrors (d : String) : List String :=
  if d = "" then ["Введите описание товара"]
  else if 10 ≤ d.length ∧ d.length ≤ 2000 then []
  else ["Описание должно быть от 10 до 2000 символов"]

/-- `ProductForm.validate()`: all three data fields pass. -/
def productFormValid (title description : String) (price : Option ℚ) : Bool :=
  (titleFieldErrors title).isEmpty && (descriptionFieldErrors description).isEmpty &&
    (priceAccepted price)

/-- The error list of `CommentForm.text`: `DataRequired`, `Length(10, 500)`. -/
def commentTextErrors (t : String) : List String :=
  if t = "" then ["Отзыв не может быть пустым"]
  else if 10 ≤ t.length ∧ t.length ≤ 500 then []
  else ["Отзыв должен быть от 10 до 500 символов"]

/-- `Shop.query.filter_by(name=n).first()` — the read in
`ShopForm.validate_name`. -/
def findShopByName (shops : List Shop) (n : String) : Option Shop :=
  shops.find? (fun s => s.name == n)

/-- `ShopForm.validate_name`: returns `true` (no error) unless some stored
shop has the submitted name and it is not the shop being edited (`self.shop`,
when set).  `edited = none` models a form with no `shop` attribute
(creation). -/
def validate_name (shops : List Shop) (edited : Option Shop) (n : String) : Bool :=
  match findShopByName shops n with
  | none => true
  | some s =>
    match edited with
    | none => false
    | some e => s.id == e.id

/-- Outcome of `views.login` on a submitted form: establish a session for a
user, or re-render with a flashed message. -/
inductive LoginResult
  | success (userId : Nat)
  | failure (msg : String)
deriving DecidableEq

/-- The single flash used for both login failure modes (`views.py` line 39). -/
def loginFailMsg : String := "Неверный email или пароль"

/-- `views.login` on a validated submission: look the user up by email and
check the password against the stored hash (`bcrypt.check_password_hash`,
abstracted as `verify`). -/
def login (verify : String → String → Bool) (users : List User)
    (email password : String) : LoginResult :=
  match findUserByEmail users email with
  | some u =>
    if verify u.passwordHash password then .success u.id else .failure loginFailMsg
  | none => .failure loginFailMsg

/-- Outcome of `views.register` on a submission. -/
inductive RegisterResult
  | validationError (errs : List (String × String))
  | duplicateFlash
  | success (u : User)
deriving DecidableEq

/-- All field errors of a `RegisterForm` submission, tagged with their field
name. -/
def registerFormErrors (emailOk : String → Bool) (users : List User)
    (email password confirm : String) : List (String × String) :=
  (emailFieldErrors emailOk users email).map (fun m => ("email", m)) ++
  (passwordFieldErrors password).map (fun m => ("password", m)) ++
  (confirmFieldErrors password confirm).map (fun m => ("confirm_password", m))

/-- `views.register`: if the form validates, re-check the email for an
existing user (flash + redirect if found — dead code, since the form's own
`validate_email` already failed in that case), hash the password and insert
the new `User`; otherwise re-render with the field errors and leave the
store untouched. -/
def register (emailOk : String → Bool) (hash : String → String)
    (users : List User) (email password confirm : String) (freshId : Nat) :
    RegisterResult × List User :=
  let errs := registerFormErrors emailOk users email password confirm
  if errs.isEmpty then
    match findUserByEmail users email with
    | some _ => (.duplicateFlash, users)
    | none =>
      let u : User := ⟨freshId, email, hash password⟩
      (.success u, users ++ [u])
  else (.validationError errs, users)

/-- Outcome of `views.edit_account` on a submission. -/
inductive EditProfileResult
  | validationError (errs : List String)
  | success
deriving DecidableEq

/-- `views.edit_account`: validate the `EditProfileForm` (whose `email` field
carries the same validators as registration, including the inherited
`BaseForm.validate_email` uniqueness check against the whole `User` table);
on success overwrite the caller's email and commit. -/
def edit_account (emailOk : String → Bool) (users : List User)
    (callerId : Nat) (newEmail : String) : EditProfileResult × List User :=
  let errs := emailFieldErrors emailOk users newEmail
  if errs.isEmpty then
    (.success, users.map (fun u => if u.id == callerId then { u with email := newEmail } else u))
  else (.validationError errs, users)

/-- The terminal outcomes a view can produce besides a normal page. -/
inductive ViewResult
  | notFound
  | forbidden
  | invalid
  | ok
  | appError
deriving DecidableEq

/-- `Product.query.get_or_404(pid)` — point lookup by primary key. -/
def getProduct (st : Store) (pid : Nat) : Option Product :=
  st.products.find? (fun p => p.id == pid)

/-- `Shop.query.get_or_404(sid)` — point lookup by primary key. -/
def getShop (st : Store) (sid : Nat) : Option Shop :=
  st.shops.find? (fun s => s.id == sid)

/-- `views.manage_shop`: 404 on a missing shop id, then 403 unless the shop's
owner is the caller; a read-only page otherwise. -/
def manage_shop (st : Store) (callerId sid : Nat) : ViewResult :=
  match getShop st sid with
  | none => .notFound
  | some sh => if sh.ownerId == callerId then .ok else .forbidden

/-- `views.add_product`: 404 on a missing shop id, then 403 unless the caller
owns the shop, then `ProductForm` validation, then insert of the new
`Product` under the shop. -/
def add_product (st : Store) (callerId sid : Nat) (title description : String)
    (price : Option ℚ) (image : Option String) (freshId : Nat) :
    ViewResult × Store :=
  match getShop st sid with
  | none => (.notFound, st)
  | some sh =>
    if sh.ownerId == callerId then
      match price with
      | some v =>
        if productFormValid title description (some v) then
          (.ok, { st with
                  products := st.products ++ [⟨freshId, title, description, v, image, sh.id⟩] })
        else (.invalid, st)
      | none => (.invalid, st)
    else (.forbidden, st)

/-- `views.delete_product`: 404 on a missing product id; the handler then
dereferences `product.shop` (an uncaught error if the parent row were
missing, `appError` — excluded by the no-orphans invariant), 403s unless the
caller owns that shop, bulk-deletes the product's comments
(`Comment.query.filter_by(product_id=product.id).delete()`), deletes the
product row and commits. -/
def delete_product (st : Store) (callerId pid : Nat) : ViewResult × Store :=
  match getProduct st pid with
  | none => (.notFound, st)
  | some p =>
    match getShop st p.shopId with
    | none => (.appError, st)
    | some sh =>
      if sh.ownerId == callerId then
        (.ok, { st with
                products := st.products.filter (fun q => !(q.id == pid)),
                comments := st.comments.filter (fun c => !(c.productId == pid)) })
      else (.forbidden, st)

/-- Outcome of a POST to `views.product` (comment submission). -/
inductive CommentResult
  | notFound
  | redirectLogin
  | invalid
  | ok
deriving DecidableEq

/-- POST handler of `views.product`: `get_or_404` on the product id first,
then `CommentForm` validation, then the authentication check (redirect to
login when anonymous), then insert of the `Comment`. -/
def product (st : Store) (authenticated : Bool) (callerId pid : Nat)
    (text : String) (freshId : Nat) : CommentResult × Store :=
  match getProduct st pid with
  | none => (.notFound, st)
  | some p =>
    if (commentTextErrors text).isEmpty then
      if authenticated then
        (.ok, { st with comments := st.comments ++ [⟨freshId, text, callerId, p.id⟩] })
      else (.redirectLogin, st)
    else (.invalid, st)

/-- SQL `LIKE` pattern matching as `ILIKE` performs it: `%` matches any
(possibly empty) sequence, `_` matches exactly one character, and any other
pattern character matches a text character case-insensitively.  No escape
character is configured on the `ilike` calls in `views.search`. -/
def ilikeMatch : List Char → List Char → Bool
  | [], s => s.isEmpty
  | p :: ps, s =>
    if p = '%' then s.tails.any (fun t => ilikeMatch ps t)
    else if p = '_' then
      match s with
      | [] => false
      | _ :: cs => ilikeMatch ps cs
    else
      match s with
      | [] => false
      | c :: cs => (p.toLower == c.toLower) && ilikeMatch ps cs

/-- `Product.title.ilike(f'%query%') | Product.description.ilike(...)`. -/
def productMatches (q : String) (p : Product) : Bool :=
  ilikeMatch ('%' :: q.data ++ ['%']) p.title.data ||
    ilikeMatch ('%' :: q.data ++ ['%']) p.description.data

/-- `views.search`: `request.args.get('q', '')`; an empty (falsy) query short
circuits to an empty result list, otherwise the store is filtered by the
`ilike` disjunction. -/
def search (q : String) (products : List Product) : List Product :=
  if q = "" then [] else products.filter (productMatches q)

/-- Spec-side reading of the search contract ("case-insensitive substring
match on title OR description"): the lower-cased query occurs as a contiguous
substring of the lower-cased field. -/
def containsCI (q s : String) : Bool :=
  decide ((q.data.map Char.toLower) <:+: (s.data.map Char.toLower))

/-! ## Search: LIKE patterns built from wildcard-free queries are substring
tests -/

/-- A pattern that is a lone `%` matches every text. -/
lemma ilikeMatch_percent_nil (s : List Char) : ilikeMatch ['%'] s = true := by
  simp [ilikeMatch, List.any_eq_true, List.mem_tails, List.isEmpty_iff]

/-- A wildcard-free pattern followed by `%` matches exactly the texts whose
lower-casing starts with the pattern's lower-casing. -/
lemma ilikeMatch_nowild_prefix (q : List Char) :
    '%' ∉ q → '_' ∉ q → ∀ s : List Char,
      (ilikeMatch (q ++ ['%']) s = true ↔ q.map Char.toLower <+: s.map Char.toLower) := by
  induction q with
  | nil =>
    intro _ _ s
    simpa using ilikeMatch_percent_nil s
  | cons a q ih =>
    intro h1 h2 s
    have ha1 : a ≠ '%' := fun h => h1 (by simp [h])
    have ha2 : a ≠ '_' := fun h => h2 (by simp [h])
    have hq1 : '%' ∉ q := fun h => h1 (List.mem_cons_of_mem _ h)
    have hq2 : '_' ∉ q := fun h => h2 (List.mem_cons_of_mem _ h)
    cases s with
    | nil => simp [ilikeMatch, ha1, ha2]
    | cons c cs =>
      simp only [List.cons_append, ilikeMatch, if_neg ha1, if_neg ha2,
        Bool.and_eq_true, beq_iff_eq, List.map_cons, List.cons_prefix_cons]
      exact and_congr_right fun _ => ih hq1 hq2 cs

/-- For a wildcard-free query `q`, the pattern `%q%` matches exactly the texts
whose lower-casing contains the lower-casing of `q` as a contiguous
substring. -/
lemma ilikeMatch_contains (q : List Char) (h1 : '%' ∉ q) (h2 : '_' ∉ q) :
    ∀ s : List Char,
      (ilikeMatch ('%' :: (q ++ ['%'])) s = true ↔
        q.map Char.toLower <:+: s.map Char.toLower) := by
  intro s
  induction s with
  | nil =>
    have hred : ilikeMatch ('%' :: (q ++ ['%'])) [] = ilikeMatch (q ++ ['%']) [] := by
      simp [ilikeMatch]
    rw [hred, ilikeMatch_nowild_prefix q h1 h2 []]
    simp
  | cons c cs ih =>
    have hsplit : ilikeMatch ('%' :: (q ++ ['%'])) (c :: cs)
        = (ilikeMatch (q ++ ['%']) (c :: cs) || ilikeMatch ('%' :: (q ++ ['%'])) cs) := by
      simp [ilikeMatch]
    rw [hsplit, Bool.or_eq_true, ilikeMatch_nowild_prefix q h1 h2 (c :: cs), ih]
    simp only [List.map_cons]
    exact (List.infix_cons_iff).symm

/-- For a wildcard-free query, `productMatches` is the substring test of the
spec. -/
lemma productMatches_eq_containsCI (q : String) (h1 : '%' ∉ q.data)
    (h2 : '_' ∉ q.data) (p : Product) :
    productMatches q p = (containsCI q p.title || containsCI q p.description) := by
  have hT : ilikeMatch ('%' :: q.data ++ ['%']) p.title.data = containsCI q p.title := by
    rw [Bool.eq_iff_iff, containsCI]
    simpa using ilikeMatch_contains q.data h1 h2 p.title.data
  have hD : ilikeMatch ('%' :: q.data ++ ['%']) p.description.data
      = containsCI q p.description := by
    rw [Bool.eq_iff_iff, containsCI]
    simpa using ilikeMatch_contains q.data h1 h2 p.description.data
  rw [productMatches, hT, hD]

/-! ## The claims -/

/-- C8: for every store state, `views.search` applied to the empty query
string returns the empty product list (not all products) and produces no
error (the function is total). -/
theorem search_empty_query_empty (products : List Product) :
    search "" products = [] := by
  simp [search]

/-- C2 fails as stated: a submitted price of exactly `0.01` passes
`NumberRange(min=0.01)` (`0.01 < 0.01` is false), so it is accepted even
though it is not strictly greater than `0.01`. -/
theorem price_exactly_min_accepted :
    priceAccepted (some (1 / 100)) = true ∧ ¬((1 : ℚ) / 100 > 1 / 100) := by
  constructor
  · norm_num [priceAccepted, priceFieldErrors]
  · norm_num

/-- C2 (amended): product price validation accepts a submitted price iff it
is present, numeric, and at least `0.01` (the bound is inclusive). -/
theorem priceAccepted_iff (p : Option ℚ) :
    priceAccepted p = true ↔ ∃ v : ℚ, p = some v ∧ 1 / 100 ≤ v := by
  cases p with
  | none => simp [priceAccepted, priceFieldErrors]
  | some v =>
    have hv : priceAccepted (some v) = true ↔ 1 / 100 ≤ v := by
      simp only [priceAccepted, priceFieldErrors]
      by_cases h0 : v = 0
      · subst h0; norm_num
      · by_cases hlt : v < 1 / 100
        · rw [if_neg h0, if_pos hlt]
          constructor
          · intro h; simp at h
          · intro h; linarith
        · rw [if_neg h0, if_neg hlt]
          constructor
          · intro _; exact not_lt.mp hlt
          · intro _; rfl
    rw [hv]
    constructor
    · intro h; exact ⟨v, rfl, h⟩
    · rintro ⟨w, hw, hle⟩
      obtain rfl : v = w := by injection hw
      exact hle

/-- C9 fails as stated: SQL `ILIKE` gives the characters `%` and `_` of the
query wildcard meaning, so the query `"_"` matches the product titled
`"ab"` although `"_"` is not a substring of either of its text fields. -/
theorem search_wildcard_counterexample :
    search "_" [⟨1, "ab", "pqrstuvwxyz", 5, none, 1⟩]
        = [⟨1, "ab", "pqrstuvwxyz", 5, none, 1⟩] ∧
      containsCI "_" "ab" = false ∧ containsCI "_" "pqrstuvwxyz" = false := by
  refine ⟨?_, by decide, by decide⟩
  decide

/-- C9 (amended): for every non-empty query containing neither of the SQL
LIKE wildcard characters `%` and `_`, `views.search` returns exactly the
stored products whose title or description contains the query as a
case-insensitive substring. -/
theorem search_substring_exact (q : String) (products : List Product)
    (hne : q ≠ "") (h1 : '%' ∉ q.data) (h2 : '_' ∉ q.data) :
    search q products
      = products.filter (fun p => containsCI q p.title || containsCI q p.description) := by
  rw [search, if_neg hne]
  exact List.filter_congr fun p _ => productMatches_eq_containsCI q h1 h2 p

/-- Witness for C9 (amended) at the spec's own example: query `"shirt"` over
`"Red Shirt"` and `"Blue Pants"`. -/
theorem search_substring_exact_witness :
    search "shirt"
        [⟨1, "Red Shirt", "a bright red shirt", 5, none, 1⟩,
         ⟨2, "Blue Pants", "comfortable blue denim", 7, none, 1⟩]
      = List.filter
          (fun p => containsCI "shirt" p.title || containsCI "shirt" p.description)
          [⟨1, "Red Shirt", "a bright red shirt", 5, none, 1⟩,
           ⟨2, "Blue Pants", "comfortable blue denim", 7, none, 1⟩] :=
  search_substring_exact "shirt" _ (by decide) (by decide) (by decide)

/-- A small store shared by the concrete instantiations below: one shop
(id 1, owner 10) holding one product (id 5) with two comments, one of them on
a different product id. -/
def sampleStore : Store where
  users := [⟨10, "owner@x.com", "hash1"⟩, ⟨11, "other@x.com", "hash2"⟩]
  shops := [⟨1, "Alpha", none, 10⟩]
  products := [⟨5, "Widget", "A wonderful widget", 3, none, 1⟩]
  comments := [⟨21, "Lovely widget, thanks", 11, 5⟩, ⟨22, "Another comment here", 11, 6⟩]

/-- C1: every registration attempt whose email equals a stored user's email
fails with a `ValidationError` on the email field, and the `User` table is
unchanged. -/
theorem register_duplicate_email_fails (emailOk : String → Bool)
    (hash : String → String) (users : List User)
    (email password confirm : String) (freshId : Nat)
    (hdup : emailTaken users email = true) :
    ∃ errs, register emailOk hash users email password confirm freshId
        = (.validationError errs, users) ∧ ∃ m, ("email", m) ∈ errs := by
  obtain ⟨m, hm⟩ : ∃ m, m ∈ emailFieldErrors emailOk users email := by
    by_cases he : email = ""
    · exact ⟨"Поле email обязательно для заполнения", by simp [emailFieldErrors, he]⟩
    · exact ⟨"Этот email уже зарегистрирован", by simp [emailFieldErrors, he, hdup]⟩
  have herr : ("email", m) ∈ registerFormErrors emailOk users email password confirm := by
    unfold registerFormErrors
    exact List.mem_append_left _ (List.mem_append_left _ (List.mem_map_of_mem _ hm))
  have hne : ¬((registerFormErrors emailOk users email password confirm).isEmpty = true) := by
    rw [List.isEmpty_iff]
    exact List.ne_nil_of_mem herr
  refine ⟨registerFormErrors emailOk users email password confirm, ?_, ⟨m, herr⟩⟩
  simp only [register]
  rw [if_neg hne]

/-- Witness for C1: re-registering `a@x.com` over a store that already holds
it. -/
theorem register_duplicate_email_fails_witness :
    emailTaken [⟨1, "a@x.com", "h1"⟩] "a@x.com" = true ∧
    ∃ errs, register (fun _ => true) (fun p => p) [⟨1, "a@x.com", "h1"⟩]
        "a@x.com" "password1" "password1" 2
      = (.validationError errs, [⟨1, "a@x.com", "h1"⟩]) ∧ ∃ m, ("email", m) ∈ errs :=
  ⟨by decide,
    register_duplicate_email_fails (fun _ => true) (fun p => p) [⟨1, "a@x.com", "h1"⟩]
      "a@x.com" "password1" "password1" 2 (by decide)⟩

/-- C3 fails on the code: `EditProfileForm` inherits `BaseForm.validate_email`,
which rejects any email present in the `User` table with no exclusion for the
caller's own row — so resubmitting one's own current (valid, ≤100 chars)
email is rejected, while the spec's self-exclusion table entry
("registration only") and the ShopForm name validator's own self-exclusion
show the intended behavior is to accept it.  Concretely: user 1 stores
`a@x.com` and submits `a@x.com` on edit-profile; the outcome is the
uniqueness `ValidationError`, and the table is unchanged. -/
theorem edit_account_own_email_rejected :
    edit_account (fun _ => true) [⟨1, "a@x.com", "h1"⟩] 1 "a@x.com"
      = (.validationError ["Этот email уже зарегистрирован"], [⟨1, "a@x.com", "h1"⟩]) := by
  decide

/-- C4: deleting an existing product as the owning shop's owner removes all
comments carrying that product id and the product row itself; afterwards the
point lookup misses. -/
theorem delete_product_cascade (st : Store) (callerId pid : Nat)
    (p : Product) (sh : Shop)
    (hp : getProduct st pid = some p) (hs : getShop st p.shopId = some sh)
    (hown : sh.ownerId = callerId) :
    delete_product st callerId pid
        = (.ok, { st with
                  products := st.products.filter (fun q => !(q.id == pid)),
                  comments := st.comments.filter (fun c => !(c.productId == pid)) }) ∧
    getProduct (delete_product st callerId pid).2 pid = none ∧
    ∀ c ∈ (delete_product st callerId pid).2.comments, c.productId ≠ pid := by
  have heq : delete_product st callerId pid
      = (.ok, { st with
                products := st.products.filter (fun q => !(q.id == pid)),
                comments := st.comments.filter (fun c => !(c.productId == pid)) }) := by
    simp [delete_product, hp, hs, hown]
  refine ⟨heq, ?_, ?_⟩
  · rw [heq]
    simp [getProduct, List.find?_eq_none, List.mem_filter]
  · rw [heq]
    intro c hc
    simp only [List.mem_filter, Bool.not_eq_eq_eq_not, Bool.not_true,
      beq_eq_false_iff_ne] at hc
    exact hc.2

/-- Witness for C4: the shop owner (id 10) deletes product 5 of
`sampleStore`. -/
theorem delete_product_cascade_witness :
    delete_product sampleStore 10 5
        = (.ok, { sampleStore with
                  products := sampleStore.products.filter (fun q => !(q.id == 5)),
                  comments := sampleStore.comments.filter (fun c => !(c.productId == 5)) }) ∧
    getProduct (delete_product sampleStore 10 5).2 5 = none ∧
    ∀ c ∈ (delete_product sampleStore 10 5).2.comments, c.productId ≠ 5 :=
  delete_product_cascade sampleStore 10 5
    ⟨5, "Widget", "A wonderful widget", 3, none, 1⟩ ⟨1, "Alpha", none, 10⟩
    (by decide) (by decide) (by decide)

/-- C5: login with a stored email succeeds exactly when the password verifies
against the stored hash, and both failure modes — wrong password for a known
email, and unknown email — produce the one generic failure message
`loginFailMsg`, indistinguishable to the caller. -/
theorem login_success_and_generic_failure (verify : String → String → Bool)
    (users : List User) (email password : String) :
    (∀ u, findUserByEmail users email = some u →
        verify u.passwordHash password = true →
        login verify users email password = .success u.id) ∧
    (∀ u, findUserByEmail users email = some u →
        verify u.passwordHash password = false →
        login verify users email password = .failure loginFailMsg) ∧
    (findUserByEmail users email = none →
        login verify users email password = .failure loginFailMsg) := by
  refine ⟨fun u hu hv => ?_, fun u hu hv => ?_, fun h => ?_⟩ <;> simp [login, *]

/-- Witness for C5: correct password, wrong password and unknown email over a
one-user store, with string-equality standing in for hash verification. -/
theorem login_success_and_generic_failure_witness :
    login (fun h pw => h == pw) [⟨1, "a@x.com", "secret123"⟩] "a@x.com" "secret123"
        = .success 1 ∧
    login (fun h pw => h == pw) [⟨1, "a@x.com", "secret123"⟩] "a@x.com" "wrongpass"
        = .failure loginFailMsg ∧
    login (fun h pw => h == pw) [⟨1, "a@x.com", "secret123"⟩] "b@x.com" "secret123"
        = .failure loginFailMsg :=
  ⟨(login_success_and_generic_failure (fun h pw => h == pw)
      [⟨1, "a@x.com", "secret123"⟩] "a@x.com" "secret123").1
      ⟨1, "a@x.com", "secret123"⟩ (by decide) (by decide),
   (login_success_and_generic_failure (fun h pw => h == pw)
      [⟨1, "a@x.com", "secret123"⟩] "a@x.com" "wrongpass").2.1
      ⟨1, "a@x.com", "secret123"⟩ (by decide) (by decide),
   (login_success_and_generic_failure (fun h pw => h == pw)
      [⟨1, "a@x.com", "secret123"⟩] "b@x.com" "secret123").2.2 (by decide)⟩

/-- C6: when the caller is not the owner of the target shop (or of the shop
owning the target product), `manage_shop`, `add_product` and `delete_product`
all fail with `forbidden` — an outcome distinct from `notFound` — and the
store is unchanged. -/
theorem nonowner_mutation_forbidden (st : Store) (callerId : Nat) :
    (∀ sid sh, getShop st sid = some sh → sh.ownerId ≠ callerId →
        manage_shop st callerId sid = .forbidden ∧
        ∀ title description price image freshId,
          add_product st callerId sid title description price image freshId
            = (.forbidden, st)) ∧
    (∀ pid p sh, getProduct st pid = some p → getShop st p.shopId = some sh →
        sh.ownerId ≠ callerId →
        delete_product st callerId pid = (.forbidden, st)) ∧
    ViewResult.forbidden ≠ ViewResult.notFound := by
  refine ⟨fun sid sh hs hown => ⟨?_, fun t d pr im f => ?_⟩,
          fun pid p sh hp hs hown => ?_, by decide⟩
  · have hb : (sh.ownerId == callerId) = false := by simp [hown]
    simp [manage_shop, hs, hb]
  · have hb : (sh.ownerId == callerId) = false := by simp [hown]
    simp [add_product, hs, hb]
  · have hb : (sh.ownerId == callerId) = false := by simp [hown]
    simp [delete_product, hp, hs, hb]

/-- Witness for C6: caller 99 (not owner 10) against `sampleStore`. -/
theorem nonowner_mutation_forbidden_witness :
    manage_shop sampleStore 99 1 = .forbidden ∧
    add_product sampleStore 99 1 "Widget2" "Another fine widget" (some 3) none 7
        = (.forbidden, sampleStore) ∧
    delete_product sampleStore 99 5 = (.forbidden, sampleStore) ∧
    ViewResult.forbidden ≠ ViewResult.notFound :=
  ⟨((nonowner_mutation_forbidden sampleStore 99).1 1 ⟨1, "Alpha", none, 10⟩
      (by decide) (by decide)).1,
   ((nonowner_mutation_forbidden sampleStore 99).1 1 ⟨1, "Alpha", none, 10⟩
      (by decide) (by decide)).2 "Widget2" "Another fine widget" (some 3) none 7,
   (nonowner_mutation_forbidden sampleStore 99).2.1 5
      ⟨5, "Widget", "A wonderful widget", 3, none, 1⟩ ⟨1, "Alpha", none, 10⟩
      (by decide) (by decide) (by decide),
   (nonowner_mutation_forbidden sampleStore 99).2.2⟩

/-- In a store whose shop names are pairwise distinct (the spec's uniqueness
invariant), `filter_by(name=...).first()` finds exactly the member shop
carrying that name. -/
lemma findShopByName_unique (shops : List Shop)
    (hnames : shops.Pairwise (fun a b => a.name ≠ b.name)) (sh : Shop)
    (hmem : sh ∈ shops) : findShopByName shops sh.name = some sh := by
  cases hfind : findShopByName shops sh.name with
  | none => exact absurd (by simp) (List.find?_eq_none.mp hfind sh hmem)
  | some s =>
    have hs_name : s.name = sh.name := by
      have := List.find?_some hfind
      simpa using this
    have hss : s = sh := by
      by_contra hne
      exact (hnames.forall (fun _ _ h => Ne.symm h)
        (List.mem_of_find?_eq_some hfind) hmem hne) hs_name
    rw [hss]

/-- C7: under the shop-name uniqueness invariant, `ShopForm.validate_name`
rejects a submitted name equal to the name of an existing shop other than the
one being edited, and accepts, during an edit, the edited shop's own current
name (self-exclusion). -/
theorem validate_name_self_exclusion (shops : List Shop)
    (hnames : shops.Pairwise (fun a b => a.name ≠ b.name)) :
    (∀ sh ∈ shops, ∀ edited : Option Shop,
        (∀ e, edited = some e → e.id ≠ sh.id) →
        validate_name shops edited sh.name = false) ∧
    (∀ e ∈ shops, validate_name shops (some e) e.name = true) := by
  constructor
  · intro sh hmem edited hexcl
    have hfind := findShopByName_unique shops hnames sh hmem
    cases edited with
    | none => simp [validate_name, hfind]
    | some e =>
      have hid : (sh.id == e.id) = false := by simp [Ne.symm (hexcl e rfl)]
      simp [validate_name, hfind, hid]
  · intro e hmem
    have hfind := findShopByName_unique shops hnames e hmem
    simp [validate_name, hfind]

/-- Witness for C7: two shops "Alpha" (id 1) and "Beta" (id 2); creation with
name "Alpha" fails, editing shop 2 to "Alpha" fails, editing shop 1 to its
own name "Alpha" succeeds. -/
theorem validate_name_self_exclusion_witness :
    validate_name [⟨1, "Alpha", none, 10⟩, ⟨2, "Beta", none, 11⟩] none "Alpha" = false ∧
    validate_name [⟨1, "Alpha", none, 10⟩, ⟨2, "Beta", none, 11⟩]
        (some ⟨2, "Beta", none, 11⟩) "Alpha" = false ∧
    validate_name [⟨1, "Alpha", none, 10⟩, ⟨2, "Beta", none, 11⟩]
        (some ⟨1, "Alpha", none, 10⟩) "Alpha" = true :=
  ⟨(validate_name_self_exclusion _ (by decide)).1 ⟨1, "Alpha", none, 10⟩ (by decide)
      none (fun _ h => nomatch h),
   (validate_name_self_exclusion _ (by decide)).1 ⟨1, "Alpha", none, 10⟩ (by decide)
      (some ⟨2, "Beta", none, 11⟩) (fun e h => by cases h; decide),
   (validate_name_self_exclusion _ (by decide)).2 ⟨1, "Alpha", none, 10⟩ (by decide)⟩

/-- C10: a comment submission on a product id missing from the store fails
with `notFound` for authenticated and anonymous callers alike (the lookup
precedes the authentication check), and no comment is inserted. -/
theorem comment_on_missing_product_notFound (st : Store) (pid : Nat)
    (h : getProduct st pid = none) (authenticated : Bool) (callerId : Nat)
    (text : String) (freshId : Nat) :
    product st authenticated callerId pid text freshId = (.notFound, st) := by
  simp [product, h]

/-- Witness for C10: product id 77 does not exist in `sampleStore`; the
submission fails identically with and without authentication. -/
theorem comment_on_missing_product_notFound_witness :
    product sampleStore true 11 77 "Great product, many thanks!" 9
        = (.notFound, sampleStore) ∧
    product sampleStore false 11 77 "Great product, many thanks!" 9
        = (.notFound, sampleStore) :=
  ⟨comment_on_missing_product_notFound sampleStore 77 (by decide) true 11
      "Great product, many thanks!" 9,
   comment_on_missing_product_notFound sampleStore 77 (by decide) false 11
      "Great product, many thanks!" 9⟩

end Marketplace
